import Mathlib

/-!
Verification development for the gkisalatiga/ptz-with-gamepad repository.

The embedding covers the two core pieces of the program:
  * the VISCA command/inquiry codec of src/debug/pyviscas/visca.py
    (class Camera / class PTZ), and
  * the gamepad input-debounce loop of src/gamepad_taffgo.py (function main).

Python strings are Lean String values; Python ints are Lean Int/Nat; the
analog axis readings (floats quantized to three decimals by the
str-formatting in the source) are modelled as integers in thousandths, so
the float value v corresponds to the integer round(v * 1000).  Fallible
Python code (early return False, raised exceptions) is modelled with
Option, none standing for "no command string was produced".
-/

/-- Uppercase hexadecimal digit (the digits produced by the Python format
string percent-X) for a nibble value below 16. -/
def hexDigitU (n : Nat) : Char :=
  if n < 10 then Char.ofNat (48 + n) else Char.ofNat (55 + n)

/-- Lowercase hexadecimal digit (the digits produced by the Python builtin
hex) for a nibble value below 16. -/
def hexDigitL (n : Nat) : Char :=
  if n < 10 then Char.ofNat (48 + n) else Char.ofNat (87 + n)

/-- Big-endian hex digits of a natural number, empty for zero; the first
argument is fuel (any value at least the number itself suffices). -/
def natHexAux (dig : Nat → Char) : Nat → Nat → List Char
  | 0, _ => []
  | fuel + 1, n => if n = 0 then [] else natHexAux dig fuel (n / 16) ++ [dig (n % 16)]

/-- The Python expression (percent-X format) applied to a nonnegative integer:
uppercase hex digits, the single digit 0 for zero. -/
def pyHexU (n : Nat) : String :=
  if n = 0 then "0" else ⟨natHexAux hexDigitU n n⟩

/-- The Python expression (percent-X format) applied to any integer: a minus
sign followed by the digits of the absolute value when negative. -/
def pyFormatX (n : Int) : String :=
  if n < 0 then "-" ++ pyHexU (-n).toNat else pyHexU n.toNat

/-- Python hex(n)[2:] for a nonnegative n: lowercase hex digits. -/
def pyHexLower (n : Nat) : String :=
  if n = 0 then "0" else ⟨natHexAux hexDigitL n n⟩

/-- Worker for pyReplace; the fuel argument starts at the length of the
subject string, which suffices because every step consumes at least one
character of the subject. -/
def replaceFuel (pat rep : List Char) : Nat → List Char → List Char
  | 0, s => s
  | fuel + 1, s =>
    match s with
    | [] => []
    | c :: rest =>
      if pat ≠ [] ∧ pat.isPrefixOf (c :: rest) then
        rep ++ replaceFuel pat rep fuel ((c :: rest).drop pat.length)
      else
        c :: replaceFuel pat rep fuel rest

/-- Python str.replace: replaces every non-overlapping occurrence of pat,
scanning left to right, continuing after each inserted replacement. -/
def pyReplace (s pat rep : String) : String :=
  ⟨replaceFuel pat.data rep.data s.data.length s.data⟩

/-- Python slicing s[a:b] for nonnegative bounds. -/
def pySlice (s : String) (a b : Nat) : String :=
  ⟨(s.data.drop a).take (b - a)⟩

/-- Python indexing s[i]; the source only indexes in bounds, so the default
character is never reached there. -/
def charAt (s : String) (i : Nat) : Char :=
  s.data.getD i 'X'

/-- Value of one hexadecimal digit character (either case). -/
def hexVal (c : Char) : Nat :=
  if 48 ≤ c.toNat ∧ c.toNat ≤ 57 then c.toNat - 48
  else if 65 ≤ c.toNat ∧ c.toNat ≤ 70 then c.toNat - 55
  else if 97 ≤ c.toNat ∧ c.toNat ≤ 102 then c.toNat - 87
  else 0

/-- Python int(s, 16) on a string of hexadecimal digits. -/
def pyIntHex (s : String) : Nat :=
  s.data.foldl (fun acc c => 16 * acc + hexVal c) 0

namespace Camera

/-- Camera.command (visca.py lines 52-70): unhexlifies the command string and
writes it to the serial port.  The transport is external; writeOk says
whether the write raises.  Returns True on success and False on exception:
the failing command is dropped, logged, and never retried. -/
def command (writeOk : Bool) (com : String) : Bool :=
  if writeOk then true else false

end Camera

namespace PTZ

/-- PTZ.comm (visca.py lines 272-280): calls Camera.command on the command
string but contains no return statement, so the Python function returns
None whatever the write outcome; none models that None. -/
def comm (writeOk : Bool) (com : String) : Option Bool :=
  let _ := Camera.command writeOk com
  none

/-- PTZ._zero_pad (visca.py lines 165-184): left-pads the string with zeros
up to the requested digit count. -/
def _zero_pad (num : String) (digit : Nat) : String :=
  ⟨List.replicate (digit - num.length) '0'⟩ ++ num

/-- PTZ.left (visca.py lines 442-452): pan left at a speed; the amount is
percent-X formatted, zero-padded to two characters when shorter, and
substituted into the template; no clamping happens in the source. -/
def left (amount : Int) : String :=
  let hex_string := pyFormatX amount
  let hex_string := if hex_string.length < 2 then "0" ++ hex_string else hex_string
  pyReplace (pyReplace "81010601VVWW0103FF" "VV" hex_string) "WW" "15"

/-- PTZ.right (visca.py lines 636-645). -/
def right (amount : Int) : String :=
  let hex_string := pyFormatX amount
  let hex_string := if hex_string.length < 2 then "0" ++ hex_string else hex_string
  pyReplace (pyReplace "81010601VVWW0203FF" "VV" hex_string) "WW" "15"

/-- PTZ.up (visca.py lines 820-829). -/
def up (amount : Int) : String :=
  let hs := pyFormatX amount
  let hs := if hs.length < 2 then "0" ++ hs else hs
  pyReplace (pyReplace "81010601VVWW0301FF" "VV" "15") "WW" hs

/-- PTZ.down (visca.py lines 282-291). -/
def down (amount : Int) : String :=
  let hs := pyFormatX amount
  let hs := if hs.length < 2 then "0" ++ hs else hs
  pyReplace (pyReplace "81010601VVWW0302FF" "VV" "15") "WW" hs

/-- PTZ.stop (visca.py line 813-818). -/
def stop : String := "8101060115150303FF"

/-- PTZ.preset_recall (visca.py lines 559-573): the memory index is clamped
into 0..255, percent-X formatted, zero-padded to two characters, and
substituted for PP. -/
def preset_recall (memory : Int) : String :=
  let num := memory
  let num := if num > 255 then 255 else num
  let num := if num < 0 then 0 else num
  let hex_string := pyFormatX num
  let hex_string := if hex_string.length < 2 then "0" ++ hex_string else hex_string
  pyReplace "8101043F02PPFF" "PP" hex_string

/-- PTZ.preset_set (visca.py lines 575-589). -/
def preset_set (memory : Int) : String :=
  let num := memory
  let num := if num > 255 then 255 else num
  let num := if num < 0 then 0 else num
  let hex_string := pyFormatX num
  let hex_string := if hex_string.length < 2 then "0" ++ hex_string else hex_string
  pyReplace "8101043F01PPFF" "PP" hex_string

/-- PTZ.zoom_in (visca.py lines 882-892).  The source formats the amount,
then runs the two clamp lines; for an amount above 7 the first clamp line
rebinds hs to the integer 7, and the following int(hs, 16) raises
TypeError; for a negative amount the second clamp line rebinds hs to the
integer 0 and str.replace raises TypeError.  none models the exception (no
command string is produced); in range, the single hex digit is substituted
for P. -/
def zoom_in (amount : Int) : Option String :=
  if amount > 7 then none
  else if amount < 0 then none
  else some (pyReplace "810104072PFF" "P" (pyFormatX amount))

/-- PTZ.zoom_out (visca.py lines 894-904), same structure as zoom_in. -/
def zoom_out (amount : Int) : Option String :=
  if amount > 7 then none
  else if amount < 0 then none
  else some (pyReplace "810104073PFF" "P" (pyFormatX amount))

/-- PTZ.zoom_stop (visca.py lines 906-911). -/
def zoom_stop : String := "8101040700FF"

/-- PTZ.focus_far (visca.py lines 301-311), same structure as zoom_in. -/
def focus_far (amount : Int) : Option String :=
  if amount > 7 then none
  else if amount < 0 then none
  else some (pyReplace "810104082PFF" "P" (pyFormatX amount))

/-- PTZ.focus_near (visca.py lines 313-323), same structure as zoom_in. -/
def focus_near (amount : Int) : Option String :=
  if amount > 7 then none
  else if amount < 0 then none
  else some (pyReplace "810104083PFF" "P" (pyFormatX amount))

/-- The nibble-per-byte spreading done by the f-strings of the absolute
position setters: 0 p0 0 p1 0 p2 0 p3 for the first four characters. -/
def spread4 (s : String) : String :=
  ⟨['0', charAt s 0, '0', charAt s 1, '0', charAt s 2, '0', charAt s 3]⟩

/-- PTZ.set_pan (visca.py lines 653-680).  The serial write and the
get_tilt inquiry are external collaborators: the current tilt (the integer
returned by get_tilt, hence nonnegative) is a parameter.  none models the
early return False on out-of-range input, where no command is built or
sent; otherwise negative values are offset by 65535 and the command string
is built from lowercase hex nibbles. -/
def set_pan (val : Int) (speed : Nat) (tilt : Nat) : Option String :=
  if val < -32767 ∨ val > 32767 then none
  else
    let val := if val < 0 then 65535 + val else val
    let p := _zero_pad (pyHexLower val.toNat) 4
    let t := _zero_pad (pyHexLower tilt) 4
    let s := _zero_pad (pyHexLower speed) 2
    some ("81010602" ++ s ++ s ++ spread4 p ++ spread4 t ++ "FF")

/-- PTZ.set_tilt (visca.py lines 708-735), symmetric to set_pan with the
current pan passed in. -/
def set_tilt (val : Int) (speed : Nat) (pan : Nat) : Option String :=
  if val < -32767 ∨ val > 32767 then none
  else
    let val := if val < 0 then 65535 + val else val
    let p := _zero_pad (pyHexLower pan) 4
    let t := _zero_pad (pyHexLower val.toNat) 4
    let s := _zero_pad (pyHexLower speed) 2
    some ("81010602" ++ s ++ s ++ spread4 p ++ spread4 t ++ "FF")

/-- PTZ.set_zoom (visca.py lines 766-783): none models the early return
False on out-of-range input (no command built or sent). -/
def set_zoom (val : Int) : Option String :=
  if val < 0 ∨ val > 65535 then none
  else some ("81010447" ++ spread4 (_zero_pad (pyHexLower val.toNat) 4) ++ "FF")

/-- PTZ.relative_position (visca.py lines 591-626).  multi_replace performs
its four substitutions in a single simultaneous regex pass; the patterns
VV, WW, 0Y0Y0Y0Y, 0Z0Z0Z0Z occur at disjoint positions of the template and
no substituted text can contain another pattern (the substitutions consist
of decimal or hexadecimal digits, 0 and a possible minus sign), so the
sequential left-to-right rendering below produces the identical string. -/
def relative_position (pan tilt amount_pan amount_tilt direction_pan direction_tilt : Int) :
    String :=
  let amount_pan := if direction_pan ≠ 1 then 65532 - amount_pan else amount_pan
  let amount_tilt := if direction_tilt ≠ 1 then 65500 - amount_tilt else amount_tilt
  let pan_string := pyFormatX amount_pan
  let pan_string :=
    if pan_string.length > 3 then pan_string
    else (⟨List.replicate (4 - pan_string.length) '0'⟩ : String) ++ pan_string
  let pan_string := "0" ++ (⟨List.intersperse '0' pan_string.data⟩ : String)
  let tilt_string := pyFormatX amount_tilt
  let tilt_string :=
    if tilt_string.length > 3 then tilt_string
    else (⟨List.replicate (4 - tilt_string.length) '0'⟩ : String) ++ tilt_string
  let tilt_string := "0" ++ (⟨List.intersperse '0' tilt_string.data⟩ : String)
  let vv := if pan > 9 then toString pan else "0" ++ toString pan
  let ww := if tilt > 9 then toString tilt else "0" ++ toString tilt
  pyReplace
    (pyReplace
      (pyReplace (pyReplace "81010603VVWW0Y0Y0Y0Y0Z0Z0Z0ZFF" "VV" vv) "WW" ww)
      "0Y0Y0Y0Y" pan_string)
    "0Z0Z0Z0Z" tilt_string

/-- PTZ.get_pan response decoding (visca.py lines 365-371): the inquiry
81090612FF and the serial read are external; resp is the hexadecimal
response string (22 characters expected).  The source takes raw =
resp[5:12] and parses raw[0] raw[2] raw[4] raw[6] as a base-16 integer. -/
def get_pan (resp : String) : Nat :=
  let raw := pySlice resp 5 12
  pyIntHex ⟨[charAt raw 0, charAt raw 2, charAt raw 4, charAt raw 6]⟩

/-- PTZ.get_tilt response decoding (visca.py lines 373-379): raw =
resp[13:20], then raw[0] raw[2] raw[4] raw[6] parsed base 16. -/
def get_tilt (resp : String) : Nat :=
  let raw := pySlice resp 13 20
  pyIntHex ⟨[charAt raw 0, charAt raw 2, charAt raw 4, charAt raw 6]⟩

/-- PTZ.get_zoom response decoding (visca.py lines 381-387): inquiry
81090447FF, 14-character response; raw = resp[5:12], same extraction. -/
def get_zoom (resp : String) : Nat :=
  let raw := pySlice resp 5 12
  pyIntHex ⟨[charAt raw 0, charAt raw 2, charAt raw 4, charAt raw 6]⟩

end PTZ

/-!
Gamepad loop of src/gamepad_taffgo.py (function main).

The loop body is the per-poll-cycle work done for one joystick.  The
module-level blocking flags and the two speed ceilings are the mutable
state; each stage below models one commented block of the source, taking
exactly the flags that block reads and returning their new values together
with the commands dispatched by the block (a dispatched command cam.f(a)
is recorded as the constructor f with argument a).  Axis readings are
integers in thousandths of the normalized float value.
-/

/-- One dispatched camera call of the gamepad loop. -/
inductive Cmd where
  | presetRecall (n : Int)
  | presetSet (n : Int)
  | left (v : Int)
  | right (v : Int)
  | up (v : Int)
  | down (v : Int)
  | stop
  | zoomIn (v : Int)
  | zoomOut (v : Int)
  | zoomStop
deriving DecidableEq

/-- Does the command start a pan motion to the left. -/
def Cmd.isLeft : Cmd → Bool
  | .left _ => true
  | _ => false

/-- Does the command start a pan motion to the right. -/
def Cmd.isRight : Cmd → Bool
  | .right _ => true
  | _ => false

/-- Does the command start a tilt motion upward. -/
def Cmd.isUp : Cmd → Bool
  | .up _ => true
  | _ => false

/-- Does the command start a tilt motion downward. -/
def Cmd.isDown : Cmd → Bool
  | .down _ => true
  | _ => false

/-- Is the command the pan/tilt stop command. -/
def Cmd.isStop : Cmd → Bool
  | .stop => true
  | _ => false

/-- Is the command any of the four pan/tilt start-motion commands. -/
def Cmd.isStart (c : Cmd) : Bool :=
  c.isLeft || c.isRight || c.isUp || c.isDown

/-- Is the command a recall of the given preset index. -/
def Cmd.isRecallOf (k : Int) : Cmd → Bool
  | .presetRecall n => n == k
  | _ => false

/-- Is the command a set of the given preset index. -/
def Cmd.isSetOf (k : Int) : Cmd → Bool
  | .presetSet n => n == k
  | _ => false

/-- The raw values polled from the joystick each cycle (gamepad_taffgo.py
lines 158-177).  The buttons are the 0/1 integers returned by get_button;
l2 and r2 are the derived binary values of lines 160 and 162; hat is the
pair returned by get_hat; x, y, ry are the three used axis readings in
thousandths (the source formats each axis with three decimals). -/
structure GPInput where
  l1 : Nat
  l2 : Nat
  r1 : Nat
  r2 : Nat
  menu : Nat
  btnA : Nat
  btnB : Nat
  btnX : Nat
  btnY : Nat
  hat : Int × Int
  x : Int
  y : Int
  ry : Int
deriving DecidableEq

/-- The mutable state of main: the two speed ceilings and the blocking
flags (gamepad_taffgo.py lines 69-106). -/
structure GPState where
  max_movement_speed : Int
  max_zoom_speed : Int
  block_up : Bool
  block_down : Bool
  block_left : Bool
  block_right : Bool
  block_rest : Bool
  block_zoom_in : Bool
  block_zoom_out : Bool
  block_zoom_rest : Bool
  block_0 : Bool
  block_1 : Bool
  block_2 : Bool
  block_3 : Bool
  block_4 : Bool
  block_5 : Bool
  block_6 : Bool
  block_7 : Bool
  block_set_0 : Bool
  block_set_1 : Bool
  block_set_2 : Bool
  block_set_3 : Bool
  block_set_4 : Bool
  block_set_5 : Bool
  block_set_6 : Bool
  block_set_7 : Bool
deriving DecidableEq

/-- The state at session start (gamepad_taffgo.py lines 70-106): ceilings 7
and 7, every blocking flag False. -/
def initState : GPState where
  max_movement_speed := 7
  max_zoom_speed := 7
  block_up := false
  block_down := false
  block_left := false
  block_right := false
  block_rest := false
  block_zoom_in := false
  block_zoom_out := false
  block_zoom_rest := false
  block_0 := false
  block_1 := false
  block_2 := false
  block_3 := false
  block_4 := false
  block_5 := false
  block_6 := false
  block_7 := false
  block_set_0 := false
  block_set_1 := false
  block_set_2 := false
  block_set_3 := false
  block_set_4 := false
  block_set_5 := false
  block_set_6 := false
  block_set_7 := false

/-- get_speed (gamepad_taffgo.py lines 50-57): the ceiling times the
absolute value of the normalized magnitude. -/
def get_speed (val max_speed : ℚ) : ℚ :=
  max_speed * |val|

/-- The recurring button block (for example gamepad_taffgo.py lines
186-194): on a pressed button with a clear flag, dispatch once and latch;
on a released button, clear the flag; dispatch nothing otherwise. -/
def buttonLatch (btn : Nat) (blk : Bool) (cmd : Cmd) : Bool × List Cmd :=
  if btn = 1 then
    if !blk then (true, [cmd]) else (blk, [])
  else if btn = 0 then
    if blk then (false, []) else (blk, [])
  else (blk, [])

/-- The recurring hat block (for example gamepad_taffgo.py lines 229-233):
dispatch once and latch while the hat points in the given direction; the
flag is cleared separately at the hat ground state. -/
def hatLatch (hat dir : Int × Int) (blk : Bool) (cmd : Cmd) : Bool × List Cmd :=
  if hat = dir then
    if !blk then (true, [cmd]) else (blk, [])
  else (blk, [])

/-- Recalling presets, right hand (gamepad_taffgo.py lines 183-224): under
menu flag 0, the four face buttons recall presets 0-3 through four
independent latches. -/
def recall_right_hand (menu btnY btnB btnA btnX : Nat) (b0 b1 b2 b3 : Bool) :
    (Bool × Bool × Bool × Bool) × List Cmd :=
  if menu = 0 then
    let r0 := buttonLatch btnY b0 (Cmd.presetRecall 0)
    let r1 := buttonLatch btnB b1 (Cmd.presetRecall 1)
    let r2 := buttonLatch btnA b2 (Cmd.presetRecall 2)
    let r3 := buttonLatch btnX b3 (Cmd.presetRecall 3)
    ((r0.1, r1.1, r2.1, r3.1), r0.2 ++ r1.2 ++ r2.2 ++ r3.2)
  else ((b0, b1, b2, b3), [])

/-- Recalling presets, left hand (gamepad_taffgo.py lines 226-266): under
menu flag 0, the four hat directions recall presets 4-7; the hat ground
state (0, 0) clears all four latches. -/
def recall_left_hand (menu : Nat) (hat : Int × Int) (b4 b5 b6 b7 : Bool) :
    (Bool × Bool × Bool × Bool) × List Cmd :=
  if menu = 0 then
    let r4 := hatLatch hat (0, 1) b4 (Cmd.presetRecall 4)
    let r5 := hatLatch hat (1, 0) b5 (Cmd.presetRecall 5)
    let r6 := hatLatch hat (0, -1) b6 (Cmd.presetRecall 6)
    let r7 := hatLatch hat (-1, 0) b7 (Cmd.presetRecall 7)
    if hat = (0, 0) then ((false, false, false, false), r4.2 ++ r5.2 ++ r6.2 ++ r7.2)
    else ((r4.1, r5.1, r6.1, r7.1), r4.2 ++ r5.2 ++ r6.2 ++ r7.2)
  else ((b4, b5, b6, b7), [])

/-- Setting presets, right hand (gamepad_taffgo.py lines 268-309): under
menu flag 1, the four face buttons overwrite presets 0-3 through four
latches independent of the recall latches. -/
def set_right_hand (menu btnY btnB btnA btnX : Nat) (b0 b1 b2 b3 : Bool) :
    (Bool × Bool × Bool × Bool) × List Cmd :=
  if menu = 1 then
    let r0 := buttonLatch btnY b0 (Cmd.presetSet 0)
    let r1 := buttonLatch btnB b1 (Cmd.presetSet 1)
    let r2 := buttonLatch btnA b2 (Cmd.presetSet 2)
    let r3 := buttonLatch btnX b3 (Cmd.presetSet 3)
    ((r0.1, r1.1, r2.1, r3.1), r0.2 ++ r1.2 ++ r2.2 ++ r3.2)
  else ((b0, b1, b2, b3), [])

/-- Setting presets, left hand (gamepad_taffgo.py lines 311-350). -/
def set_left_hand (menu : Nat) (hat : Int × Int) (b4 b5 b6 b7 : Bool) :
    (Bool × Bool × Bool × Bool) × List Cmd :=
  if menu = 1 then
    let r4 := hatLatch hat (0, 1) b4 (Cmd.presetSet 4)
    let r5 := hatLatch hat (1, 0) b5 (Cmd.presetSet 5)
    let r6 := hatLatch hat (0, -1) b6 (Cmd.presetSet 6)
    let r7 := hatLatch hat (-1, 0) b7 (Cmd.presetSet 7)
    if hat = (0, 0) then ((false, false, false, false), r4.2 ++ r5.2 ++ r6.2 ++ r7.2)
    else ((r4.1, r5.1, r6.1, r7.1), r4.2 ++ r5.2 ++ r6.2 ++ r7.2)
  else ((b4, b5, b6, b7), [])

/-- Adjusting the pan/tilt speed ceiling (gamepad_taffgo.py lines 352-362):
low 1 when both shoulder inputs are 0, medium 7 on L1, max 14 on L2; when
no condition fires the previous ceiling persists. -/
def adjust_speed_movement (l1 l2 : Nat) (m : Int) : Int :=
  let m := if l1 = 0 ∧ l2 = 0 then 1 else m
  let m := if l1 = 1 then 7 else m
  let m := if l2 = 1 then 14 else m
  m

/-- Adjusting the zoom speed ceiling (gamepad_taffgo.py lines 364-374):
low 1, medium 3 on R1, max 7 on R2. -/
def adjust_speed_zoom (r1 r2 : Nat) (m : Int) : Int :=
  let m := if r1 = 0 ∧ r2 = 0 then 1 else m
  let m := if r1 = 1 then 3 else m
  let m := if r2 = 1 then 7 else m
  m

/-- Left-right panning (gamepad_taffgo.py lines 376-391): when the x axis
is away from the rest value 0.000, a leftward reading in [-1, 0) dispatches
cam.left once through block_left, a rightward reading in (0, 1] dispatches
cam.right once through block_right; the dispatched speed is
round(get_speed(1.0, MAX_MOVEMENT_SPEED)).  Returns the two flags and the
commands. -/
def movement_pan (x mv : Int) (bl br : Bool) : Bool × Bool × List Cmd :=
  if x ≠ 0 then
    if -1000 ≤ x ∧ x < 0 then
      if !bl then (true, br, [Cmd.left (round (get_speed 1 (mv : ℚ)))]) else (bl, br, [])
    else if 0 < x ∧ x ≤ 1000 then
      if !br then (bl, true, [Cmd.right (round (get_speed 1 (mv : ℚ)))]) else (bl, br, [])
    else (bl, br, [])
  else (bl, br, [])

/-- Up-down tilting (gamepad_taffgo.py lines 393-408): the outer guard of
the source compares the y axis against the literal 128 (128000 in
thousandths), which is outside the axis range and hence always true; the
inner window conditions then select up for [-1, 0) and down for (0, 1]. -/
def movement_tilt (y mv : Int) (bu bd : Bool) : Bool × Bool × List Cmd :=
  if y ≠ 128000 then
    if -1000 ≤ y ∧ y < 0 then
      if !bu then (true, bd, [Cmd.up (round (get_speed 1 (mv : ℚ)))]) else (bu, bd, [])
    else if 0 < y ∧ y ≤ 1000 then
      if !bd then (bu, true, [Cmd.down (round (get_speed 1 (mv : ℚ)))]) else (bu, bd, [])
    else (bu, bd, [])
  else (bu, bd, [])

/-- Pan/tilt rest detection (gamepad_taffgo.py lines 410-428): when both
axes read exactly the rest value, cam.stop is dispatched once through
block_rest and the four directional latches are cleared; away from rest
block_rest is cleared.  Flag order: up, down, left, right, rest. -/
def pan_tilt_rest (x y : Int) (bu bd bl br brest : Bool) :
    (Bool × Bool × Bool × Bool × Bool) × List Cmd :=
  if x = y ∧ x = 0 then
    if !brest then ((false, false, false, false, true), [Cmd.stop])
    else ((bu, bd, bl, br, brest), [])
  else
    if brest then ((bu, bd, bl, br, false), []) else ((bu, bd, bl, br, brest), [])

/-- Zoom movement (gamepad_taffgo.py lines 430-445): same structure as the
tilt block on the right stick y axis, dispatching cam.zoom_in for [-1, 0)
and cam.zoom_out for (0, 1] at round(get_speed(1.0, MAX_ZOOM_SPEED)). -/
def movement_zoom (ry mz : Int) (bi bo : Bool) : Bool × Bool × List Cmd :=
  if ry ≠ 128000 then
    if -1000 ≤ ry ∧ ry < 0 then
      if !bi then (true, bo, [Cmd.zoomIn (round (get_speed 1 (mz : ℚ)))]) else (bi, bo, [])
    else if 0 < ry ∧ ry ≤ 1000 then
      if !bo then (bi, true, [Cmd.zoomOut (round (get_speed 1 (mz : ℚ)))]) else (bi, bo, [])
    else (bi, bo, [])
  else (bi, bo, [])

/-- Zoom rest detection (gamepad_taffgo.py lines 447-461): at the rest
value cam.zoom_stop is dispatched once through block_zoom_rest and both
zoom latches are cleared.  Flag order: zoom_in, zoom_out, zoom_rest. -/
def zoom_rest (ry : Int) (bi bo bzrest : Bool) :
    (Bool × Bool × Bool × Bool × Bool) × List Cmd :=
  if ry = 0 then
    if !bzrest then ((false, false, false, false, true), [Cmd.zoomStop])
    else ((bi, bo, false, false, bzrest), [])
  else
    if bzrest then ((bi, bo, false, false, false), []) else ((bi, bo, false, false, bzrest), [])

/-- One poll cycle of the main loop for one joystick (gamepad_taffgo.py
lines 183-461), threading the blocking flags through the blocks in source
order and concatenating the dispatched commands in dispatch order. -/
def mainCycle (s : GPState) (i : GPInput) : GPState × List Cmd :=
  let rr := recall_right_hand i.menu i.btnY i.btnB i.btnA i.btnX
              s.block_0 s.block_1 s.block_2 s.block_3
  let rl := recall_left_hand i.menu i.hat s.block_4 s.block_5 s.block_6 s.block_7
  let sr := set_right_hand i.menu i.btnY i.btnB i.btnA i.btnX
              s.block_set_0 s.block_set_1 s.block_set_2 s.block_set_3
  let sl := set_left_hand i.menu i.hat s.block_set_4 s.block_set_5 s.block_set_6 s.block_set_7
  let mm := adjust_speed_movement i.l1 i.l2 s.max_movement_speed
  let mz := adjust_speed_zoom i.r1 i.r2 s.max_zoom_speed
  let mp := movement_pan i.x mm s.block_left s.block_right
  let mt := movement_tilt i.y mm s.block_up s.block_down
  let pr := pan_tilt_rest i.x i.y mt.1 mt.2.1 mp.1 mp.2.1 s.block_rest
  let zm := movement_zoom i.ry mz s.block_zoom_in s.block_zoom_out
  let zr := zoom_rest i.ry zm.1 zm.2.1 s.block_zoom_rest
  ({ max_movement_speed := mm
     max_zoom_speed := mz
     block_up := pr.1.1
     block_down := pr.1.2.1
     block_left := pr.1.2.2.1
     block_right := pr.1.2.2.2.1
     block_rest := pr.1.2.2.2.2
     block_zoom_in := zr.1.1
     block_zoom_out := zr.1.2.1
     block_zoom_rest := zr.1.2.2.2.2
     block_0 := rr.1.1
     block_1 := rr.1.2.1
     block_2 := rr.1.2.2.1
     block_3 := rr.1.2.2.2
     block_4 := rl.1.1
     block_5 := rl.1.2.1
     block_6 := rl.1.2.2.1
     block_7 := rl.1.2.2.2
     block_set_0 := sr.1.1
     block_set_1 := sr.1.2.1
     block_set_2 := sr.1.2.2.1
     block_set_3 := sr.1.2.2.2
     block_set_4 := sl.1.1
     block_set_5 := sl.1.2.1
     block_set_6 := sl.1.2.2.1
     block_set_7 := sl.1.2.2.2 },
   rr.2 ++ rl.2 ++ sr.2 ++ sl.2 ++ mp.2.2 ++ mt.2.2 ++ pr.2 ++ zm.2.2 ++ zr.2)

/-- Running the loop over a sequence of poll cycles, collecting every
dispatched command in order. -/
def runCycles (s : GPState) : List GPInput → GPState × List Cmd
  | [] => (s, [])
  | i :: rest =>
    let r := mainCycle s i
    let r2 := runCycles r.1 rest
    (r2.1, r.2 ++ r2.2)

/-- A cycle with no button pressed, the hat at ground and every axis at
rest. -/
def idleInput : GPInput where
  l1 := 0
  l2 := 0
  r1 := 0
  r2 := 0
  menu := 0
  btnA := 0
  btnB := 0
  btnX := 0
  btnY := 0
  hat := (0, 0)
  x := 0
  y := 0
  ry := 0

/-- Potential of a blocking flag: how many more dispatches the flag still
admits before a release resets it. -/
def latchPot (b : Bool) : Nat :=
  if b then 0 else 1

/-- The property C10 asserts of a dispatched command: every motion or zoom
command carries exactly round(get_speed(1.0, ceiling)) for the ceiling
selected by the shoulder buttons of the same cycle, which equals the
ceiling itself; the statement does not depend on the axis readings. -/
def tierSpeedOk (s : GPState) (i : GPInput) : Cmd → Prop
  | .left v =>
      v = round (get_speed 1 ((adjust_speed_movement i.l1 i.l2 s.max_movement_speed : Int) : ℚ)) ∧
      v = adjust_speed_movement i.l1 i.l2 s.max_movement_speed
  | .right v =>
      v = round (get_speed 1 ((adjust_speed_movement i.l1 i.l2 s.max_movement_speed : Int) : ℚ)) ∧
      v = adjust_speed_movement i.l1 i.l2 s.max_movement_speed
  | .up v =>
      v = round (get_speed 1 ((adjust_speed_movement i.l1 i.l2 s.max_movement_speed : Int) : ℚ)) ∧
      v = adjust_speed_movement i.l1 i.l2 s.max_movement_speed
  | .down v =>
      v = round (get_speed 1 ((adjust_speed_movement i.l1 i.l2 s.max_movement_speed : Int) : ℚ)) ∧
      v = adjust_speed_movement i.l1 i.l2 s.max_movement_speed
  | .zoomIn v =>
      v = round (get_speed 1 ((adjust_speed_zoom i.r1 i.r2 s.max_zoom_speed : Int) : ℚ)) ∧
      v = adjust_speed_zoom i.r1 i.r2 s.max_zoom_speed
  | .zoomOut v =>
      v = round (get_speed 1 ((adjust_speed_zoom i.r1 i.r2 s.max_zoom_speed : Int) : ℚ)) ∧
      v = adjust_speed_zoom i.r1 i.r2 s.max_zoom_speed
  | _ => True

theorem getD_drop {α : Type} (l : List α) (n k : Nat) (d : α) :
    (l.drop n).getD k d = l.getD (n + k) d := by
  induction l generalizing n with
  | nil => simp [List.getD]
  | cons c t ih =>
    cases n with
    | zero => simp
    | succ m =>
      show (t.drop m).getD k d = (c :: t).getD (m + 1 + k) d
      rw [ih m]
      have : m + 1 + k = (m + k) + 1 := by omega
      rw [this]
      rfl

theorem getD_take {α : Type} (l : List α) (m k : Nat) (d : α) (h : k < m) :
    (l.take m).getD k d = l.getD k d := by
  induction l generalizing m k with
  | nil => simp [List.getD]
  | cons c t ih =>
    cases m with
    | zero => omega
    | succ m2 =>
      cases k with
      | zero => rfl
      | succ k2 =>
        show ((t.take m2).getD k2 d) = t.getD k2 d
        exact ih m2 k2 (by omega)

theorem countP_zero_of {l : List Cmd} {p : Cmd → Bool} (h : ∀ c ∈ l, p c = false) :
    l.countP p = 0 := by
  rw [List.countP_eq_zero]
  intro a ha
  simp [h a ha]

theorem round_get_speed (m : Int) : round (get_speed 1 (m : ℚ)) = m := by
  simp [get_speed]

theorem buttonLatch_mem {c : Cmd} {btn : Nat} {blk : Bool} {cmd : Cmd}
    (h : c ∈ (buttonLatch btn blk cmd).2) : c = cmd := by
  unfold buttonLatch at h
  split at h
  · split at h <;> simp_all
  · split at h
    · split at h <;> simp_all
    · simp_all

theorem hatLatch_mem {c : Cmd} {hat dir : Int × Int} {blk : Bool} {cmd : Cmd}
    (h : c ∈ (hatLatch hat dir blk cmd).2) : c = cmd := by
  unfold hatLatch at h
  split at h
  · split at h <;> simp_all
  · simp_all

theorem buttonLatch_countP_zero {btn : Nat} {blk : Bool} {cmd : Cmd} {p : Cmd → Bool}
    (hp : p cmd = false) : ((buttonLatch btn blk cmd).2).countP p = 0 :=
  countP_zero_of (fun c hc => by rw [buttonLatch_mem hc]; exact hp)

theorem buttonLatch_pot {btn : Nat} {blk : Bool} {cmd : Cmd} {p : Cmd → Bool}
    (hb : btn = 1) (hp : p cmd = true) :
    ((buttonLatch btn blk cmd).2).countP p + latchPot (buttonLatch btn blk cmd).1 ≤
      latchPot blk := by
  subst hb
  unfold buttonLatch
  cases blk <;> simp [latchPot, hp]

theorem recall_right_hand_mem {c : Cmd} {menu btnY btnB btnA btnX : Nat} {b0 b1 b2 b3 : Bool}
    (h : c ∈ (recall_right_hand menu btnY btnB btnA btnX b0 b1 b2 b3).2) :
    c = Cmd.presetRecall 0 ∨ c = Cmd.presetRecall 1 ∨ c = Cmd.presetRecall 2 ∨
      c = Cmd.presetRecall 3 := by
  unfold recall_right_hand at h
  split at h
  · dsimp only at h
    simp only [List.mem_append] at h
    rcases h with ((h | h) | h) | h
    · exact Or.inl (buttonLatch_mem h)
    · exact Or.inr (Or.inl (buttonLatch_mem h))
    · exact Or.inr (Or.inr (Or.inl (buttonLatch_mem h)))
    · exact Or.inr (Or.inr (Or.inr (buttonLatch_mem h)))
  · simp_all

theorem recall_left_hand_mem {c : Cmd} {menu : Nat} {hat : Int × Int} {b4 b5 b6 b7 : Bool}
    (h : c ∈ (recall_left_hand menu hat b4 b5 b6 b7).2) :
    c = Cmd.presetRecall 4 ∨ c = Cmd.presetRecall 5 ∨ c = Cmd.presetRecall 6 ∨
      c = Cmd.presetRecall 7 := by
  unfold recall_left_hand at h
  split at h
  · split at h <;>
    · dsimp only at h
      simp only [List.mem_append] at h
      rcases h with ((h | h) | h) | h
      · exact Or.inl (hatLatch_mem h)
      · exact Or.inr (Or.inl (hatLatch_mem h))
      · exact Or.inr (Or.inr (Or.inl (hatLatch_mem h)))
      · exact Or.inr (Or.inr (Or.inr (hatLatch_mem h)))
  · simp_all

theorem set_right_hand_mem {c : Cmd} {menu btnY btnB btnA btnX : Nat} {b0 b1 b2 b3 : Bool}
    (h : c ∈ (set_right_hand menu btnY btnB btnA btnX b0 b1 b2 b3).2) :
    c = Cmd.presetSet 0 ∨ c = Cmd.presetSet 1 ∨ c = Cmd.presetSet 2 ∨ c = Cmd.presetSet 3 := by
  unfold set_right_hand at h
  split at h
  · dsimp only at h
    simp only [List.mem_append] at h
    rcases h with ((h | h) | h) | h
    · exact Or.inl (buttonLatch_mem h)
    · exact Or.inr (Or.inl (buttonLatch_mem h))
    · exact Or.inr (Or.inr (Or.inl (buttonLatch_mem h)))
    · exact Or.inr (Or.inr (Or.inr (buttonLatch_mem h)))
  · simp_all

theorem set_left_hand_mem {c : Cmd} {menu : Nat} {hat : Int × Int} {b4 b5 b6 b7 : Bool}
    (h : c ∈ (set_left_hand menu hat b4 b5 b6 b7).2) :
    c = Cmd.presetSet 4 ∨ c = Cmd.presetSet 5 ∨ c = Cmd.presetSet 6 ∨ c = Cmd.presetSet 7 := by
  unfold set_left_hand at h
  split at h
  · split at h <;>
    · dsimp only at h
      simp only [List.mem_append] at h
      rcases h with ((h | h) | h) | h
      · exact Or.inl (hatLatch_mem h)
      · exact Or.inr (Or.inl (hatLatch_mem h))
      · exact Or.inr (Or.inr (Or.inl (hatLatch_mem h)))
      · exact Or.inr (Or.inr (Or.inr (hatLatch_mem h)))
  · simp_all

theorem movement_pan_mem {c : Cmd} {x mv : Int} {bl br : Bool}
    (h : c ∈ (movement_pan x mv bl br).2.2) :
    c = Cmd.left (round (get_speed 1 (mv : ℚ))) ∨
      c = Cmd.right (round (get_speed 1 (mv : ℚ))) := by
  unfold movement_pan at h
  split at h
  · split at h
    · split at h <;> simp_all
    · split at h
      · split at h <;> simp_all
      · simp_all
  · simp_all

theorem movement_tilt_mem {c : Cmd} {y mv : Int} {bu bd : Bool}
    (h : c ∈ (movement_tilt y mv bu bd).2.2) :
    c = Cmd.up (round (get_speed 1 (mv : ℚ))) ∨
      c = Cmd.down (round (get_speed 1 (mv : ℚ))) := by
  unfold movement_tilt at h
  split at h
  · split at h
    · split at h <;> simp_all
    · split at h
      · split at h <;> simp_all
      · simp_all
  · simp_all

theorem movement_zoom_mem {c : Cmd} {ry mz : Int} {bi bo : Bool}
    (h : c ∈ (movement_zoom ry mz bi bo).2.2) :
    c = Cmd.zoomIn (round (get_speed 1 (mz : ℚ))) ∨
      c = Cmd.zoomOut (round (get_speed 1 (mz : ℚ))) := by
  unfold movement_zoom at h
  split at h
  · split at h
    · split at h <;> simp_all
    · split at h
      · split at h <;> simp_all
      · simp_all
  · simp_all

theorem pan_tilt_rest_mem {c : Cmd} {x y : Int} {bu bd bl br brest : Bool}
    (h : c ∈ (pan_tilt_rest x y bu bd bl br brest).2) : c = Cmd.stop := by
  unfold pan_tilt_rest at h
  split at h
  · split at h <;> simp_all
  · split at h <;> simp_all

theorem zoom_rest_mem {c : Cmd} {ry : Int} {bi bo bzrest : Bool}
    (h : c ∈ (zoom_rest ry bi bo bzrest).2) : c = Cmd.zoomStop := by
  unfold zoom_rest at h
  split at h
  · split at h <;> simp_all
  · split at h <;> simp_all

theorem countP_zero_recall_right {menu btnY btnB btnA btnX : Nat} {b0 b1 b2 b3 : Bool}
    {p : Cmd → Bool} (h0 : p (Cmd.presetRecall 0) = false) (h1 : p (Cmd.presetRecall 1) = false)
    (h2 : p (Cmd.presetRecall 2) = false) (h3 : p (Cmd.presetRecall 3) = false) :
    ((recall_right_hand menu btnY btnB btnA btnX b0 b1 b2 b3).2).countP p = 0 :=
  countP_zero_of (fun c hc => by
    rcases recall_right_hand_mem hc with h | h | h | h <;> subst h <;> assumption)

theorem countP_zero_recall_left {menu : Nat} {hat : Int × Int} {b4 b5 b6 b7 : Bool}
    {p : Cmd → Bool} (h4 : p (Cmd.presetRecall 4) = false) (h5 : p (Cmd.presetRecall 5) = false)
    (h6 : p (Cmd.presetRecall 6) = false) (h7 : p (Cmd.presetRecall 7) = false) :
    ((recall_left_hand menu hat b4 b5 b6 b7).2).countP p = 0 :=
  countP_zero_of (fun c hc => by
    rcases recall_left_hand_mem hc with h | h | h | h <;> subst h <;> assumption)

theorem countP_zero_set_right {menu btnY btnB btnA btnX : Nat} {b0 b1 b2 b3 : Bool}
    {p : Cmd → Bool} (h0 : p (Cmd.presetSet 0) = false) (h1 : p (Cmd.presetSet 1) = false)
    (h2 : p (Cmd.presetSet 2) = false) (h3 : p (Cmd.presetSet 3) = false) :
    ((set_right_hand menu btnY btnB btnA btnX b0 b1 b2 b3).2).countP p = 0 :=
  countP_zero_of (fun c hc => by
    rcases set_right_hand_mem hc with h | h | h | h <;> subst h <;> assumption)

theorem countP_zero_set_left {menu : Nat} {hat : Int × Int} {b4 b5 b6 b7 : Bool}
    {p : Cmd → Bool} (h4 : p (Cmd.presetSet 4) = false) (h5 : p (Cmd.presetSet 5) = false)
    (h6 : p (Cmd.presetSet 6) = false) (h7 : p (Cmd.presetSet 7) = false) :
    ((set_left_hand menu hat b4 b5 b6 b7).2).countP p = 0 :=
  countP_zero_of (fun c hc => by
    rcases set_left_hand_mem hc with h | h | h | h <;> subst h <;> assumption)

theorem countP_zero_pan {x mv : Int} {bl br : Bool} {p : Cmd → Bool}
    (hL : ∀ v, p (Cmd.left v) = false) (hR : ∀ v, p (Cmd.right v) = false) :
    ((movement_pan x mv bl br).2.2).countP p = 0 :=
  countP_zero_of (fun c hc => by
    rcases movement_pan_mem hc with h | h <;> subst h <;> first | exact hL _ | exact hR _)

theorem countP_zero_tilt {y mv : Int} {bu bd : Bool} {p : Cmd → Bool}
    (hU : ∀ v, p (Cmd.up v) = false) (hD : ∀ v, p (Cmd.down v) = false) :
    ((movement_tilt y mv bu bd).2.2).countP p = 0 :=
  countP_zero_of (fun c hc => by
    rcases movement_tilt_mem hc with h | h <;> subst h <;> first | exact hU _ | exact hD _)

theorem countP_zero_zoom {ry mz : Int} {bi bo : Bool} {p : Cmd → Bool}
    (hI : ∀ v, p (Cmd.zoomIn v) = false) (hO : ∀ v, p (Cmd.zoomOut v) = false) :
    ((movement_zoom ry mz bi bo).2.2).countP p = 0 :=
  countP_zero_of (fun c hc => by
    rcases movement_zoom_mem hc with h | h <;> subst h <;> first | exact hI _ | exact hO _)

theorem countP_zero_rest {x y : Int} {bu bd bl br brest : Bool} {p : Cmd → Bool}
    (hS : p Cmd.stop = false) :
    ((pan_tilt_rest x y bu bd bl br brest).2).countP p = 0 :=
  countP_zero_of (fun c hc => by rw [pan_tilt_rest_mem hc]; exact hS)

theorem countP_zero_zoom_rest {ry : Int} {bi bo bzrest : Bool} {p : Cmd → Bool}
    (hS : p Cmd.zoomStop = false) :
    ((zoom_rest ry bi bo bzrest).2).countP p = 0 :=
  countP_zero_of (fun c hc => by rw [zoom_rest_mem hc]; exact hS)

theorem recall_right_pot0 {menu btnY btnB btnA btnX : Nat} {b0 b1 b2 b3 : Bool}
    (hY : btnY = 1) :
    ((recall_right_hand menu btnY btnB btnA btnX b0 b1 b2 b3).2).countP (Cmd.isRecallOf 0) +
      latchPot (recall_right_hand menu btnY btnB btnA btnX b0 b1 b2 b3).1.1 ≤ latchPot b0 := by
  unfold recall_right_hand
  split
  · dsimp only
    simp only [List.countP_append]
    have h0 := @buttonLatch_pot btnY b0 (Cmd.presetRecall 0) (Cmd.isRecallOf 0) hY (by decide)
    have h1 := @buttonLatch_countP_zero btnB b1 (Cmd.presetRecall 1) (Cmd.isRecallOf 0) (by decide)
    have h2 := @buttonLatch_countP_zero btnA b2 (Cmd.presetRecall 2) (Cmd.isRecallOf 0) (by decide)
    have h3 := @buttonLatch_countP_zero btnX b3 (Cmd.presetRecall 3) (Cmd.isRecallOf 0) (by decide)
    omega
  · simp

theorem set_right_pot0 {menu btnY btnB btnA btnX : Nat} {b0 b1 b2 b3 : Bool}
    (hY : btnY = 1) :
    ((set_right_hand menu btnY btnB btnA btnX b0 b1 b2 b3).2).countP (Cmd.isSetOf 0) +
      latchPot (set_right_hand menu btnY btnB btnA btnX b0 b1 b2 b3).1.1 ≤ latchPot b0 := by
  unfold set_right_hand
  split
  · dsimp only
    simp only [List.countP_append]
    have h0 := @buttonLatch_pot btnY b0 (Cmd.presetSet 0) (Cmd.isSetOf 0) hY (by decide)
    have h1 := @buttonLatch_countP_zero btnB b1 (Cmd.presetSet 1) (Cmd.isSetOf 0) (by decide)
    have h2 := @buttonLatch_countP_zero btnA b2 (Cmd.presetSet 2) (Cmd.isSetOf 0) (by decide)
    have h3 := @buttonLatch_countP_zero btnX b3 (Cmd.presetSet 3) (Cmd.isSetOf 0) (by decide)
    omega
  · simp

theorem movement_pan_cases (x mv : Int) (bl br : Bool) :
    movement_pan x mv bl br = (bl, br, []) ∨
    (movement_pan x mv bl br = (true, br, [Cmd.left (round (get_speed 1 (mv : ℚ)))]) ∧
      bl = false) ∨
    (movement_pan x mv bl br = (bl, true, [Cmd.right (round (get_speed 1 (mv : ℚ)))]) ∧
      br = false) := by
  unfold movement_pan
  split_ifs <;> simp_all

theorem movement_tilt_cases (y mv : Int) (bu bd : Bool) :
    movement_tilt y mv bu bd = (bu, bd, []) ∨
    (movement_tilt y mv bu bd = (true, bd, [Cmd.up (round (get_speed 1 (mv : ℚ)))]) ∧
      bu = false) ∨
    (movement_tilt y mv bu bd = (bu, true, [Cmd.down (round (get_speed 1 (mv : ℚ)))]) ∧
      bd = false) := by
  unfold movement_tilt
  split_ifs <;> simp_all

theorem movement_pan_pot_left (x mv : Int) (bl br : Bool) :
    ((movement_pan x mv bl br).2.2).countP Cmd.isLeft +
      latchPot (movement_pan x mv bl br).1 ≤ latchPot bl := by
  rcases movement_pan_cases x mv bl br with h | ⟨h, hb⟩ | ⟨h, hb⟩ <;> rw [h]
  · simp [latchPot]
  · subst hb; simp [latchPot, Cmd.isLeft]
  · simp [latchPot, Cmd.isLeft]

theorem movement_pan_pot_right (x mv : Int) (bl br : Bool) :
    ((movement_pan x mv bl br).2.2).countP Cmd.isRight +
      latchPot (movement_pan x mv bl br).2.1 ≤ latchPot br := by
  rcases movement_pan_cases x mv bl br with h | ⟨h, hb⟩ | ⟨h, hb⟩ <;> rw [h]
  · simp [latchPot]
  · simp [latchPot, Cmd.isRight]
  · subst hb; simp [latchPot, Cmd.isRight]

theorem movement_tilt_pot_up (y mv : Int) (bu bd : Bool) :
    ((movement_tilt y mv bu bd).2.2).countP Cmd.isUp +
      latchPot (movement_tilt y mv bu bd).1 ≤ latchPot bu := by
  rcases movement_tilt_cases y mv bu bd with h | ⟨h, hb⟩ | ⟨h, hb⟩ <;> rw [h]
  · simp [latchPot]
  · subst hb; simp [latchPot, Cmd.isUp]
  · simp [latchPot, Cmd.isUp]

theorem movement_tilt_pot_down (y mv : Int) (bu bd : Bool) :
    ((movement_tilt y mv bu bd).2.2).countP Cmd.isDown +
      latchPot (movement_tilt y mv bu bd).2.1 ≤ latchPot bd := by
  rcases movement_tilt_cases y mv bu bd with h | ⟨h, hb⟩ | ⟨h, hb⟩ <;> rw [h]
  · simp [latchPot]
  · simp [latchPot, Cmd.isDown]
  · subst hb; simp [latchPot, Cmd.isDown]

theorem pan_tilt_rest_nonrest {x y : Int} {bu bd bl br brest : Bool}
    (h : ¬(x = 0 ∧ y = 0)) :
    pan_tilt_rest x y bu bd bl br brest = ((bu, bd, bl, br, false), []) := by
  unfold pan_tilt_rest
  rw [if_neg (by rintro ⟨h1, h2⟩; exact h ⟨h2, by omega⟩)]
  split <;> simp_all

theorem pan_tilt_rest_fire (bu bd bl br : Bool) :
    pan_tilt_rest 0 0 bu bd bl br false = ((false, false, false, false, true), [Cmd.stop]) := by
  rfl

theorem movement_pan_at_rest (mv : Int) (bl br : Bool) :
    movement_pan 0 mv bl br = (bl, br, []) := by
  rfl

theorem movement_tilt_at_rest (mv : Int) (bu bd : Bool) :
    movement_tilt 0 mv bu bd = (bu, bd, []) := by
  unfold movement_tilt
  norm_num

theorem movement_pan_fire_left {x : Int} (mv : Int) (br : Bool)
    (h1 : -1000 ≤ x) (h2 : x < 0) :
    movement_pan x mv false br = (true, br, [Cmd.left (round (get_speed 1 (mv : ℚ)))]) := by
  unfold movement_pan
  rw [if_pos (by omega), if_pos ⟨h1, h2⟩]
  rfl

theorem movement_pan_fire_right {x : Int} (mv : Int) (bl : Bool)
    (h1 : 0 < x) (h2 : x ≤ 1000) :
    movement_pan x mv bl false = (bl, true, [Cmd.right (round (get_speed 1 (mv : ℚ)))]) := by
  unfold movement_pan
  rw [if_pos (by omega), if_neg (by omega), if_pos ⟨h1, h2⟩]
  rfl

theorem movement_tilt_fire_up {y : Int} (mv : Int) (bd : Bool)
    (h1 : -1000 ≤ y) (h2 : y < 0) :
    movement_tilt y mv false bd = (true, bd, [Cmd.up (round (get_speed 1 (mv : ℚ)))]) := by
  unfold movement_tilt
  rw [if_pos (by omega), if_pos ⟨h1, h2⟩]
  rfl

theorem movement_tilt_fire_down {y : Int} (mv : Int) (bu : Bool)
    (h1 : 0 < y) (h2 : y ≤ 1000) :
    movement_tilt y mv bu false = (bu, true, [Cmd.down (round (get_speed 1 (mv : ℚ)))]) := by
  unfold movement_tilt
  rw [if_pos (by omega), if_neg (by omega), if_pos ⟨h1, h2⟩]
  rfl

theorem cycle_pot_recall0 (s : GPState) (i : GPInput) (hY : i.btnY = 1) :
    ((mainCycle s i).2).countP (Cmd.isRecallOf 0) + latchPot (mainCycle s i).1.block_0 ≤
      latchPot s.block_0 := by
  simp only [mainCycle]
  simp only [List.countP_append]
  rw [countP_zero_recall_left (by decide) (by decide) (by decide) (by decide),
    countP_zero_set_right (by decide) (by decide) (by decide) (by decide),
    countP_zero_set_left (by decide) (by decide) (by decide) (by decide),
    countP_zero_pan (fun v => rfl) (fun v => rfl),
    countP_zero_tilt (fun v => rfl) (fun v => rfl),
    countP_zero_zoom (fun v => rfl) (fun v => rfl),
    countP_zero_rest (by decide),
    countP_zero_zoom_rest (by decide)]
  simp only [add_zero]
  exact recall_right_pot0 hY

theorem cycle_pot_set0 (s : GPState) (i : GPInput) (hY : i.btnY = 1) :
    ((mainCycle s i).2).countP (Cmd.isSetOf 0) + latchPot (mainCycle s i).1.block_set_0 ≤
      latchPot s.block_set_0 := by
  simp only [mainCycle]
  simp only [List.countP_append]
  rw [countP_zero_recall_right (by decide) (by decide) (by decide) (by decide),
    countP_zero_recall_left (by decide) (by decide) (by decide) (by decide),
    countP_zero_set_left (by decide) (by decide) (by decide) (by decide),
    countP_zero_pan (fun v => rfl) (fun v => rfl),
    countP_zero_tilt (fun v => rfl) (fun v => rfl),
    countP_zero_zoom (fun v => rfl) (fun v => rfl),
    countP_zero_rest (by decide),
    countP_zero_zoom_rest (by decide)]
  simp only [add_zero, zero_add]
  exact set_right_pot0 hY

theorem cycle_nonrest_left (s : GPState) (i : GPInput) (h : ¬(i.x = 0 ∧ i.y = 0)) :
    ((mainCycle s i).2).countP Cmd.isLeft + latchPot (mainCycle s i).1.block_left ≤
      latchPot s.block_left := by
  simp only [mainCycle]
  rw [pan_tilt_rest_nonrest h]
  simp only [List.countP_append, List.countP_nil]
  rw [countP_zero_recall_right (by decide) (by decide) (by decide) (by decide),
    countP_zero_recall_left (by decide) (by decide) (by decide) (by decide),
    countP_zero_set_right (by decide) (by decide) (by decide) (by decide),
    countP_zero_set_left (by decide) (by decide) (by decide) (by decide),
    countP_zero_tilt (fun v => rfl) (fun v => rfl),
    countP_zero_zoom (fun v => rfl) (fun v => rfl),
    countP_zero_zoom_rest (by decide)]
  simp only [add_zero, zero_add]
  exact movement_pan_pot_left _ _ _ _

theorem cycle_nonrest_right (s : GPState) (i : GPInput) (h : ¬(i.x = 0 ∧ i.y = 0)) :
    ((mainCycle s i).2).countP Cmd.isRight + latchPot (mainCycle s i).1.block_right ≤
      latchPot s.block_right := by
  simp only [mainCycle]
  rw [pan_tilt_rest_nonrest h]
  simp only [List.countP_append, List.countP_nil]
  rw [countP_zero_recall_right (by decide) (by decide) (by decide) (by decide),
    countP_zero_recall_left (by decide) (by decide) (by decide) (by decide),
    countP_zero_set_right (by decide) (by decide) (by decide) (by decide),
    countP_zero_set_left (by decide) (by decide) (by decide) (by decide),
    countP_zero_tilt (fun v => rfl) (fun v => rfl),
    countP_zero_zoom (fun v => rfl) (fun v => rfl),
    countP_zero_zoom_rest (by decide)]
  simp only [add_zero, zero_add]
  exact movement_pan_pot_right _ _ _ _

theorem cycle_nonrest_up (s : GPState) (i : GPInput) (h : ¬(i.x = 0 ∧ i.y = 0)) :
    ((mainCycle s i).2).countP Cmd.isUp + latchPot (mainCycle s i).1.block_up ≤
      latchPot s.block_up := by
  simp only [mainCycle]
  rw [pan_tilt_rest_nonrest h]
  simp only [List.countP_append, List.countP_nil]
  rw [countP_zero_recall_right (by decide) (by decide) (by decide) (by decide),
    countP_zero_recall_left (by decide) (by decide) (by decide) (by decide),
    countP_zero_set_right (by decide) (by decide) (by decide) (by decide),
    countP_zero_set_left (by decide) (by decide) (by decide) (by decide),
    countP_zero_pan (fun v => rfl) (fun v => rfl),
    countP_zero_zoom (fun v => rfl) (fun v => rfl),
    countP_zero_zoom_rest (by decide)]
  simp only [add_zero, zero_add]
  exact movement_tilt_pot_up _ _ _ _

theorem cycle_nonrest_down (s : GPState) (i : GPInput) (h : ¬(i.x = 0 ∧ i.y = 0)) :
    ((mainCycle s i).2).countP Cmd.isDown + latchPot (mainCycle s i).1.block_down ≤
      latchPot s.block_down := by
  simp only [mainCycle]
  rw [pan_tilt_rest_nonrest h]
  simp only [List.countP_append, List.countP_nil]
  rw [countP_zero_recall_right (by decide) (by decide) (by decide) (by decide),
    countP_zero_recall_left (by decide) (by decide) (by decide) (by decide),
    countP_zero_set_right (by decide) (by decide) (by decide) (by decide),
    countP_zero_set_left (by decide) (by decide) (by decide) (by decide),
    countP_zero_pan (fun v => rfl) (fun v => rfl),
    countP_zero_zoom (fun v => rfl) (fun v => rfl),
    countP_zero_zoom_rest (by decide)]
  simp only [add_zero, zero_add]
  exact movement_tilt_pot_down _ _ _ _

theorem cycle_nonrest_stop (s : GPState) (i : GPInput) (h : ¬(i.x = 0 ∧ i.y = 0)) :
    ((mainCycle s i).2).countP Cmd.isStop = 0 := by
  simp only [mainCycle]
  rw [pan_tilt_rest_nonrest h]
  simp only [List.countP_append, List.countP_nil]
  rw [countP_zero_recall_right (by decide) (by decide) (by decide) (by decide),
    countP_zero_recall_left (by decide) (by decide) (by decide) (by decide),
    countP_zero_set_right (by decide) (by decide) (by decide) (by decide),
    countP_zero_set_left (by decide) (by decide) (by decide) (by decide),
    countP_zero_pan (fun v => rfl) (fun v => rfl),
    countP_zero_tilt (fun v => rfl) (fun v => rfl),
    countP_zero_zoom (fun v => rfl) (fun v => rfl),
    countP_zero_zoom_rest (by decide)]

theorem cycle_nonrest_brest (s : GPState) (i : GPInput) (h : ¬(i.x = 0 ∧ i.y = 0)) :
    (mainCycle s i).1.block_rest = false := by
  simp only [mainCycle]
  rw [pan_tilt_rest_nonrest h]

theorem cycle_rest_all (s : GPState) (i : GPInput) (hx : i.x = 0) (hy : i.y = 0)
    (hbr : s.block_rest = false) :
    ((mainCycle s i).2).countP Cmd.isLeft = 0 ∧ ((mainCycle s i).2).countP Cmd.isRight = 0 ∧
    ((mainCycle s i).2).countP Cmd.isUp = 0 ∧ ((mainCycle s i).2).countP Cmd.isDown = 0 ∧
    ((mainCycle s i).2).countP Cmd.isStop = 1 ∧
    (mainCycle s i).1.block_up = false ∧ (mainCycle s i).1.block_down = false ∧
    (mainCycle s i).1.block_left = false ∧ (mainCycle s i).1.block_right = false ∧
    (mainCycle s i).1.block_rest = true := by
  simp only [mainCycle]
  rw [hx, hy, hbr, movement_pan_at_rest, movement_tilt_at_rest, pan_tilt_rest_fire]
  refine ⟨?_, ?_, ?_, ?_, ?_, rfl, rfl, rfl, rfl, rfl⟩ <;>
  · simp only [List.countP_append]
    rw [countP_zero_recall_right (by decide) (by decide) (by decide) (by decide),
      countP_zero_recall_left (by decide) (by decide) (by decide) (by decide),
      countP_zero_set_right (by decide) (by decide) (by decide) (by decide),
      countP_zero_set_left (by decide) (by decide) (by decide) (by decide),
      countP_zero_zoom (fun v => rfl) (fun v => rfl),
      countP_zero_zoom_rest (by decide)]
    simp [Cmd.isLeft, Cmd.isRight, Cmd.isUp, Cmd.isDown, Cmd.isStop]

theorem cycle_first_start (s : GPState) (i : GPInput)
    (hL : s.block_left = false) (hR : s.block_right = false)
    (hU : s.block_up = false) (hD : s.block_down = false)
    (hnr : ¬(i.x = 0 ∧ i.y = 0))
    (hx1 : -1000 ≤ i.x) (hx2 : i.x ≤ 1000) (hy1 : -1000 ≤ i.y) (hy2 : i.y ≤ 1000) :
    1 ≤ ((mainCycle s i).2).countP Cmd.isStart := by
  simp only [mainCycle, List.countP_append]
  rcases lt_trichotomy i.x 0 with hx | hx | hx
  · rw [hL, movement_pan_fire_left _ _ hx1 hx]
    simp [List.countP_cons, Cmd.isStart, Cmd.isLeft, Cmd.isRight, Cmd.isUp, Cmd.isDown]
    omega
  · have hy : i.y ≠ 0 := fun h0 => hnr ⟨hx, h0⟩
    rcases lt_trichotomy i.y 0 with hy' | hy' | hy'
    · rw [hU, movement_tilt_fire_up _ _ hy1 hy']
      simp [List.countP_cons, Cmd.isStart, Cmd.isLeft, Cmd.isRight, Cmd.isUp, Cmd.isDown]
      omega
    · exact absurd hy' hy
    · rw [hD, movement_tilt_fire_down _ _ hy' hy2]
      simp [List.countP_cons, Cmd.isStart, Cmd.isLeft, Cmd.isRight, Cmd.isUp, Cmd.isDown]
      omega
  · rw [hR, movement_pan_fire_right _ _ hx hx2]
    simp [List.countP_cons, Cmd.isStart, Cmd.isLeft, Cmd.isRight, Cmd.isUp, Cmd.isDown]
    omega

theorem runCycles_append (s : GPState) (t1 t2 : List GPInput) :
    runCycles s (t1 ++ t2) =
      ((runCycles (runCycles s t1).1 t2).1,
        (runCycles s t1).2 ++ (runCycles (runCycles s t1).1 t2).2) := by
  induction t1 generalizing s with
  | nil => simp [runCycles]
  | cons i rest ih => simp [runCycles, ih]

theorem run_pot_recall0 (ins : List GPInput) :
    ∀ s : GPState, (∀ i ∈ ins, i.btnY = 1) →
      ((runCycles s ins).2).countP (Cmd.isRecallOf 0) + latchPot (runCycles s ins).1.block_0 ≤
        latchPot s.block_0 := by
  induction ins with
  | nil => intro s h; simp [runCycles]
  | cons i rest ih =>
    intro s h
    simp only [runCycles, List.countP_append]
    have h1 := cycle_pot_recall0 s i (h i (by simp))
    have h2 := ih (mainCycle s i).1 (fun j hj => h j (by simp [hj]))
    omega

theorem run_pot_set0 (ins : List GPInput) :
    ∀ s : GPState, (∀ i ∈ ins, i.btnY = 1) →
      ((runCycles s ins).2).countP (Cmd.isSetOf 0) + latchPot (runCycles s ins).1.block_set_0 ≤
        latchPot s.block_set_0 := by
  induction ins with
  | nil => intro s h; simp [runCycles]
  | cons i rest ih =>
    intro s h
    simp only [runCycles, List.countP_append]
    have h1 := cycle_pot_set0 s i (h i (by simp))
    have h2 := ih (mainCycle s i).1 (fun j hj => h j (by simp [hj]))
    omega

theorem run_nonrest_left (ins : List GPInput) :
    ∀ s : GPState, (∀ i ∈ ins, ¬(i.x = 0 ∧ i.y = 0)) →
      ((runCycles s ins).2).countP Cmd.isLeft + latchPot (runCycles s ins).1.block_left ≤
        latchPot s.block_left := by
  induction ins with
  | nil => intro s h; simp [runCycles]
  | cons i rest ih =>
    intro s h
    simp only [runCycles, List.countP_append]
    have h1 := cycle_nonrest_left s i (h i (by simp))
    have h2 := ih (mainCycle s i).1 (fun j hj => h j (by simp [hj]))
    omega

theorem run_nonrest_right (ins : List GPInput) :
    ∀ s : GPState, (∀ i ∈ ins, ¬(i.x = 0 ∧ i.y = 0)) →
      ((runCycles s ins).2).countP Cmd.isRight + latchPot (runCycles s ins).1.block_right ≤
        latchPot s.block_right := by
  induction ins with
  | nil => intro s h; simp [runCycles]
  | cons i rest ih =>
    intro s h
    simp only [runCycles, List.countP_append]
    have h1 := cycle_nonrest_right s i (h i (by simp))
    have h2 := ih (mainCycle s i).1 (fun j hj => h j (by simp [hj]))
    omega

theorem run_nonrest_up (ins : List GPInput) :
    ∀ s : GPState, (∀ i ∈ ins, ¬(i.x = 0 ∧ i.y = 0)) →
      ((runCycles s ins).2).countP Cmd.isUp + latchPot (runCycles s ins).1.block_up ≤
        latchPot s.block_up := by
  induction ins with
  | nil => intro s h; simp [runCycles]
  | cons i rest ih =>
    intro s h
    simp only [runCycles, List.countP_append]
    have h1 := cycle_nonrest_up s i (h i (by simp))
    have h2 := ih (mainCycle s i).1 (fun j hj => h j (by simp [hj]))
    omega

theorem run_nonrest_down (ins : List GPInput) :
    ∀ s : GPState, (∀ i ∈ ins, ¬(i.x = 0 ∧ i.y = 0)) →
      ((runCycles s ins).2).countP Cmd.isDown + latchPot (runCycles s ins).1.block_down ≤
        latchPot s.block_down := by
  induction ins with
  | nil => intro s h; simp [runCycles]
  | cons i rest ih =>
    intro s h
    simp only [runCycles, List.countP_append]
    have h1 := cycle_nonrest_down s i (h i (by simp))
    have h2 := ih (mainCycle s i).1 (fun j hj => h j (by simp [hj]))
    omega

theorem run_nonrest_stop (ins : List GPInput) :
    ∀ s : GPState, (∀ i ∈ ins, ¬(i.x = 0 ∧ i.y = 0)) →
      ((runCycles s ins).2).countP Cmd.isStop = 0 := by
  induction ins with
  | nil => intro s h; simp [runCycles]
  | cons i rest ih =>
    intro s h
    simp only [runCycles, List.countP_append]
    rw [cycle_nonrest_stop s i (h i (by simp)), ih (mainCycle s i).1 (fun j hj => h j (by simp [hj]))]

theorem run_nonrest_brest (ins : List GPInput) :
    ∀ s : GPState, (∀ i ∈ ins, ¬(i.x = 0 ∧ i.y = 0)) → ins ≠ [] →
      (runCycles s ins).1.block_rest = false := by
  induction ins with
  | nil => intro s h hne; exact absurd rfl hne
  | cons i rest ih =>
    intro s h hne
    cases rest with
    | nil =>
      simp only [runCycles]
      exact cycle_nonrest_brest s i (h i (by simp))
    | cons j rest2 =>
      simp only [runCycles]
      exact ih (mainCycle s i).1 (fun k hk => h k (by simp [hk])) (by simp)

theorem run_first_start (ins : List GPInput) (s : GPState) (hne : ins ≠ [])
    (hnr : ∀ i ∈ ins, ¬(i.x = 0 ∧ i.y = 0))
    (hrange : ∀ i ∈ ins, -1000 ≤ i.x ∧ i.x ≤ 1000 ∧ -1000 ≤ i.y ∧ i.y ≤ 1000)
    (hL : s.block_left = false) (hR : s.block_right = false)
    (hU : s.block_up = false) (hD : s.block_down = false) :
    1 ≤ ((runCycles s ins).2).countP Cmd.isStart := by
  cases ins with
  | nil => exact absurd rfl hne
  | cons i0 rest =>
    simp only [runCycles, List.countP_append]
    have h1 := cycle_first_start s i0 hL hR hU hD (hnr i0 (by simp))
      (hrange i0 (by simp)).1 (hrange i0 (by simp)).2.1 (hrange i0 (by simp)).2.2.1
      (hrange i0 (by simp)).2.2.2
    omega

/-- C8: preset_recall applied to the out-of-range memory index 300 clamps
the index to 255 and produces exactly the command string 8101043F02FFFF,
identical to preset_recall 255. -/
theorem preset_recall_300_clamps :
    PTZ.preset_recall 300 = "8101043F02FFFF" ∧
      PTZ.preset_recall 300 = PTZ.preset_recall 255 := by
  decide

/-- C1 counterexample: the motion operations do not clamp the speed to 24;
left(25) encodes the hex field 19 and so differs from left(24), while the
claimed clamping would make the two commands identical. -/
theorem motion_speed_not_clamped_cex :
    PTZ.left 25 = "8101060119150103FF" ∧ PTZ.left 24 = "8101060118150103FF" ∧
      PTZ.left 25 ≠ PTZ.left 24 := by
  decide

set_option maxRecDepth 8000 in
/-- C1 amended: for every motion-speed amount 0-255 taken by left, right,
up and down, the speed field is the uppercase hex of the raw amount
left-zero-padded to width 2; no clamping at 24 (or at 0) is applied, so
amounts above 24 encode their full unclamped hex value. -/
theorem motion_speed_encoding_amended :
    ∀ a : Fin 256,
      PTZ.left ((a : Nat) : Int) =
        "81010601" ++ PTZ._zero_pad (pyHexU (a : Nat)) 2 ++ "150103FF" ∧
      PTZ.right ((a : Nat) : Int) =
        "81010601" ++ PTZ._zero_pad (pyHexU (a : Nat)) 2 ++ "150203FF" ∧
      PTZ.up ((a : Nat) : Int) =
        "8101060115" ++ PTZ._zero_pad (pyHexU (a : Nat)) 2 ++ "0301FF" ∧
      PTZ.down ((a : Nat) : Int) =
        "8101060115" ++ PTZ._zero_pad (pyHexU (a : Nat)) 2 ++ "0302FF" := by
  decide

/-- C4: the zoom and focus speed operations do not clamp an out-of-range
amount; the clamp lines rebind hs to a Python int and the following
int(hs, 16) or str.replace raises TypeError, so no command is produced
(modelled as none), while in-range amounts encode normally. -/
theorem zoom_focus_speed_out_of_range_raises :
    PTZ.zoom_in 8 = none ∧ PTZ.zoom_out 8 = none ∧ PTZ.focus_far 8 = none ∧
      PTZ.focus_near (-1) = none ∧ PTZ.zoom_in (-1) = none ∧
      PTZ.zoom_in 7 = some "8101040727FF" ∧ PTZ.zoom_in 0 = some "8101040720FF" := by
  decide

/-- C9: Camera.command does return the boolean write outcome, but PTZ.comm
discards it and has no return statement, so every command operation hands
its caller None rather than True or False. -/
theorem comm_returns_none :
    ∀ (writeOk : Bool) (com : String),
      Camera.command writeOk com = writeOk ∧ PTZ.comm writeOk com = none := by
  intro w c
  exact ⟨by cases w <;> rfl, rfl⟩

/-- C3 counterexample: the absolute position setters reject out-of-range
input instead of clamping it; set_pan(40000) and set_zoom(65536) return
False without building or sending any command. -/
theorem absolute_setters_reject_cex :
    PTZ.set_pan 40000 5 0 = none ∧ PTZ.set_zoom 65536 = none := by
  decide

/-- C3 amended: the preset index parameters are clamped to the nearest
bound of 0..255 and a command string is still produced, but the absolute
pan/tilt/zoom setters validate their argument instead of clamping it:
input outside -32767..32767 (pan/tilt) or 0..65535 (zoom) is rejected
with no command produced or sent, and in-range input always yields a
command string. -/
theorem absolute_setters_validate :
    ∀ (val : Int) (speed tilt pan : Nat) (m : Int),
      ((m > 255 →
        PTZ.preset_recall m = PTZ.preset_recall 255 ∧
          PTZ.preset_set m = PTZ.preset_set 255) ∧
       (m < 0 →
        PTZ.preset_recall m = PTZ.preset_recall 0 ∧
          PTZ.preset_set m = PTZ.preset_set 0)) ∧
      ((val < -32767 ∨ val > 32767) →
        PTZ.set_pan val speed tilt = none ∧ PTZ.set_tilt val speed pan = none) ∧
      ((-32767 ≤ val ∧ val ≤ 32767) →
        (PTZ.set_pan val speed tilt).isSome = true ∧
          (PTZ.set_tilt val speed pan).isSome = true) ∧
      ((val < 0 ∨ val > 65535) → PTZ.set_zoom val = none) ∧
      ((0 ≤ val ∧ val ≤ 65535) → (PTZ.set_zoom val).isSome = true) := by
  intro val speed tilt pan m
  refine ⟨⟨fun h => ⟨?_, ?_⟩, fun h => ⟨?_, ?_⟩⟩, fun h => ⟨?_, ?_⟩, fun h => ⟨?_, ?_⟩,
    fun h => ?_, fun h => ?_⟩
  · simp only [PTZ.preset_recall]
    rw [if_pos h]
    norm_num
  · simp only [PTZ.preset_set]
    rw [if_pos h]
    norm_num
  · simp only [PTZ.preset_recall]
    rw [if_neg (show ¬(m > 255) by omega), if_pos h]
    norm_num
  · simp only [PTZ.preset_set]
    rw [if_neg (show ¬(m > 255) by omega), if_pos h]
    norm_num
  · unfold PTZ.set_pan; rw [if_pos h]
  · unfold PTZ.set_tilt; rw [if_pos h]
  · unfold PTZ.set_pan
    rw [if_neg (show ¬(val < -32767 ∨ val > 32767) by omega)]
    rfl
  · unfold PTZ.set_tilt
    rw [if_neg (show ¬(val < -32767 ∨ val > 32767) by omega)]
    rfl
  · unfold PTZ.set_zoom; rw [if_pos h]
  · unfold PTZ.set_zoom
    rw [if_neg (show ¬(val < 0 ∨ val > 65535) by omega)]
    rfl

/-- Witness for C3 amended: the preset index 300 clamps, and the
out-of-range absolute position 40000 is rejected with no command. -/
theorem absolute_setters_validate_witness :
    ((300 : Int) > 255 ∧
      (PTZ.preset_recall 300 = PTZ.preset_recall 255 ∧
        PTZ.preset_set 300 = PTZ.preset_set 255)) ∧
    (((40000 : Int) < -32767 ∨ (40000 : Int) > 32767) ∧
      (PTZ.set_pan 40000 5 0 = none ∧ PTZ.set_tilt 40000 5 0 = none)) :=
  ⟨⟨by decide, (absolute_setters_validate 40000 5 0 0 300).1.1 (by decide)⟩,
   ⟨Or.inr (by decide), (absolute_setters_validate 40000 5 0 0 300).2.1 (Or.inr (by decide))⟩⟩

/-- C5: in relative_position, a non-rightward pan direction replaces the
pan magnitude by 65532 minus the amount and a non-upward tilt direction
replaces the tilt magnitude by 65500 minus the amount before
nibble-splitting; in particular relative pan amount 100 with direction -1
encodes the same command as positive amount 65432. -/
theorem relative_position_offset_transform :
    (∀ pan tilt ap at2 dp dt : Int, dp ≠ 1 →
        PTZ.relative_position pan tilt ap at2 dp dt =
          PTZ.relative_position pan tilt (65532 - ap) at2 1 dt) ∧
    (∀ pan tilt ap at2 dp dt : Int, dt ≠ 1 →
        PTZ.relative_position pan tilt ap at2 dp dt =
          PTZ.relative_position pan tilt ap (65500 - at2) dp 1) ∧
    PTZ.relative_position 5 5 100 50 (-1) 1 = PTZ.relative_position 5 5 65432 50 1 1 := by
  refine ⟨?_, ?_, by decide⟩
  · intro pan tilt ap at2 dp dt h
    unfold PTZ.relative_position
    simp [h]
  · intro pan tilt ap at2 dp dt h
    unfold PTZ.relative_position
    simp [h]

/-- Witness for C5 at pan speed 5, tilt speed 5, amount 100, direction -1. -/
theorem relative_position_offset_transform_witness :
    ((-1 : Int) ≠ 1) ∧
      PTZ.relative_position 5 5 100 50 (-1) 1 =
        PTZ.relative_position 5 5 (65532 - 100) 50 1 1 :=
  ⟨by decide, relative_position_offset_transform.1 5 5 100 50 (-1) 1 (by decide)⟩

theorem charAt_slice (s : String) (a b i : Nat) (h : i < b - a) :
    charAt (pySlice s a b) i = s.data.getD (a + i) 'X' := by
  unfold charAt pySlice
  show ((s.data.drop a).take (b - a)).getD i 'X' = _
  rw [getD_take _ _ _ _ h, getD_drop]

/-- C6: for every response string of the expected length, the pan decoder
reads exactly the characters at offsets 5, 7, 9, 11, the tilt decoder the
characters at offsets 13, 15, 17, 19, and the zoom decoder (on its
14-character response) the characters at offsets 5, 7, 9, 11; each decoder
parses the 4 extracted hex characters, concatenated in order, as a base-16
unsigned integer. -/
theorem inquiry_decoders_fixed_offsets :
    (∀ resp : String, resp.length = 22 →
      PTZ.get_pan resp =
        4096 * hexVal (resp.data.getD 5 'X') + 256 * hexVal (resp.data.getD 7 'X') +
          16 * hexVal (resp.data.getD 9 'X') + hexVal (resp.data.getD 11 'X') ∧
      PTZ.get_tilt resp =
        4096 * hexVal (resp.data.getD 13 'X') + 256 * hexVal (resp.data.getD 15 'X') +
          16 * hexVal (resp.data.getD 17 'X') + hexVal (resp.data.getD 19 'X')) ∧
    (∀ resp : String, resp.length = 14 →
      PTZ.get_zoom resp =
        4096 * hexVal (resp.data.getD 5 'X') + 256 * hexVal (resp.data.getD 7 'X') +
          16 * hexVal (resp.data.getD 9 'X') + hexVal (resp.data.getD 11 'X')) := by
  constructor
  · intro resp _h
    constructor
    · simp only [PTZ.get_pan]
      rw [charAt_slice resp 5 12 0 (by omega), charAt_slice resp 5 12 2 (by omega),
        charAt_slice resp 5 12 4 (by omega), charAt_slice resp 5 12 6 (by omega)]
      simp only [pyIntHex, List.foldl]
      ring
    · simp only [PTZ.get_tilt]
      rw [charAt_slice resp 13 20 0 (by omega), charAt_slice resp 13 20 2 (by omega),
        charAt_slice resp 13 20 4 (by omega), charAt_slice resp 13 20 6 (by omega)]
      simp only [pyIntHex, List.foldl]
      ring
  · intro resp _h
    simp only [PTZ.get_zoom]
    rw [charAt_slice resp 5 12 0 (by omega), charAt_slice resp 5 12 2 (by omega),
      charAt_slice resp 5 12 4 (by omega), charAt_slice resp 5 12 6 (by omega)]
    simp only [pyIntHex, List.foldl]
    ring

/-- Witness for C6 at two concrete responses of the expected lengths. -/
theorem inquiry_decoders_fixed_offsets_witness :
    (("0123456789ABCDEF012345" : String).length = 22 ∧
      (PTZ.get_pan "0123456789ABCDEF012345" =
        4096 * hexVal (("0123456789ABCDEF012345" : String).data.getD 5 'X') +
          256 * hexVal (("0123456789ABCDEF012345" : String).data.getD 7 'X') +
          16 * hexVal (("0123456789ABCDEF012345" : String).data.getD 9 'X') +
          hexVal (("0123456789ABCDEF012345" : String).data.getD 11 'X') ∧
       PTZ.get_tilt "0123456789ABCDEF012345" =
        4096 * hexVal (("0123456789ABCDEF012345" : String).data.getD 13 'X') +
          256 * hexVal (("0123456789ABCDEF012345" : String).data.getD 15 'X') +
          16 * hexVal (("0123456789ABCDEF012345" : String).data.getD 17 'X') +
          hexVal (("0123456789ABCDEF012345" : String).data.getD 19 'X'))) ∧
    (("0123456789ABCD" : String).length = 14 ∧
      PTZ.get_zoom "0123456789ABCD" =
        4096 * hexVal (("0123456789ABCD" : String).data.getD 5 'X') +
          256 * hexVal (("0123456789ABCD" : String).data.getD 7 'X') +
          16 * hexVal (("0123456789ABCD" : String).data.getD 9 'X') +
          hexVal (("0123456789ABCD" : String).data.getD 11 'X')) :=
  ⟨⟨by decide, inquiry_decoders_fixed_offsets.1 "0123456789ABCDEF012345" (by decide)⟩,
   ⟨by decide, inquiry_decoders_fixed_offsets.2 "0123456789ABCD" (by decide)⟩⟩

/-- C2 counterexample: holding button Y across two poll cycles while the
menu modifier flips from 0 to 1 dispatches two commands for that button
(one recall and one set), because the recall and set groups hold separate
latches; the claim allows at most one with no release in between. -/
theorem preset_hold_modifier_flip_cex :
    (∀ i ∈ [{ idleInput with btnY := 1 }, { idleInput with btnY := 1, menu := 1 }],
      i.btnY = 1) ∧
    ((runCycles initState
        [{ idleInput with btnY := 1 }, { idleInput with btnY := 1, menu := 1 }]).2).countP
        (fun c => Cmd.isRecallOf 0 c || Cmd.isSetOf 0 c) = 2 := by
  constructor
  · decide
  · decide

/-- C2 amended: while a preset button (button Y here) is held continuously
over any sequence of poll cycles, each latch group fires at most once: at
most one recall-0 and at most one set-0 command are dispatched, so a
modifier flip mid-hold can add one command from the other group, and no
further dispatch happens without a full release and re-press. -/
theorem preset_hold_per_group_once :
    ∀ (s : GPState) (ins : List GPInput), (∀ i ∈ ins, i.btnY = 1) →
      ((runCycles s ins).2).countP (Cmd.isRecallOf 0) ≤ 1 ∧
      ((runCycles s ins).2).countP (Cmd.isSetOf 0) ≤ 1 := by
  intro s ins h
  have h1 := run_pot_recall0 ins s h
  have h2 := run_pot_set0 ins s h
  have g1 : latchPot s.block_0 ≤ 1 := by cases s.block_0 <;> simp [latchPot]
  have g2 : latchPot s.block_set_0 ≤ 1 := by cases s.block_set_0 <;> simp [latchPot]
  omega

/-- Witness for C2 amended on a one-cycle hold of button Y. -/
theorem preset_hold_per_group_once_witness :
    (∀ i ∈ [{ idleInput with btnY := 1 }], i.btnY = 1) ∧
    (((runCycles initState [{ idleInput with btnY := 1 }]).2).countP (Cmd.isRecallOf 0) ≤ 1 ∧
     ((runCycles initState [{ idleInput with btnY := 1 }]).2).countP (Cmd.isSetOf 0) ≤ 1) :=
  ⟨by decide, preset_hold_per_group_once initState [{ idleInput with btnY := 1 }] (by decide)⟩

/-- C7 counterexample: from a settled rest state, a single diagonal
deflection of the pan/tilt stick followed by a return to rest dispatches
two start-motion commands (left and up) at the first non-rest sample, not
exactly one, and then one stop. -/
theorem axis_rest_two_starts_cex :
    ((runCycles { initState with block_rest := true, block_zoom_rest := true }
        [{ idleInput with x := -500, y := -500 }, idleInput]).2).countP Cmd.isStart = 2 ∧
    ((runCycles { initState with block_rest := true, block_zoom_rest := true }
        [{ idleInput with x := -500, y := -500 }, idleInput]).2).countP Cmd.isStop = 1 := by
  constructor
  · decide
  · decide

/-- C7 amended: over an episode that starts in a settled rest state (all
four directional latches clear, rest latch set), holds the stick away from
rest for one or more samples and then returns exactly to rest, the loop
dispatches at most one start command per direction (left, right, up,
down), at least one start command overall, and exactly one stop command;
the stop clears all four directional latches and sets the rest latch. -/
theorem axis_rest_episode_counts :
    ∀ (s : GPState) (ins : List GPInput) (lastI : GPInput),
      (∀ i ∈ ins, ¬(i.x = 0 ∧ i.y = 0)) →
      (∀ i ∈ ins, -1000 ≤ i.x ∧ i.x ≤ 1000 ∧ -1000 ≤ i.y ∧ i.y ≤ 1000) →
      ins ≠ [] → lastI.x = 0 → lastI.y = 0 →
      s.block_left = false → s.block_right = false → s.block_up = false →
      s.block_down = false → s.block_rest = true →
      ((runCycles s (ins ++ [lastI])).2).countP Cmd.isLeft ≤ 1 ∧
      ((runCycles s (ins ++ [lastI])).2).countP Cmd.isRight ≤ 1 ∧
      ((runCycles s (ins ++ [lastI])).2).countP Cmd.isUp ≤ 1 ∧
      ((runCycles s (ins ++ [lastI])).2).countP Cmd.isDown ≤ 1 ∧
      1 ≤ ((runCycles s (ins ++ [lastI])).2).countP Cmd.isStart ∧
      ((runCycles s (ins ++ [lastI])).2).countP Cmd.isStop = 1 ∧
      (runCycles s (ins ++ [lastI])).1.block_left = false ∧
      (runCycles s (ins ++ [lastI])).1.block_right = false ∧
      (runCycles s (ins ++ [lastI])).1.block_up = false ∧
      (runCycles s (ins ++ [lastI])).1.block_down = false ∧
      (runCycles s (ins ++ [lastI])).1.block_rest = true := by
  intro s ins lastI hnr hrange hne hlx hly hL hR hU hD hbr
  have hmid : (runCycles s ins).1.block_rest = false := run_nonrest_brest ins s hnr hne
  obtain ⟨e1, e2, e3, e4, e5, f1, f2, f3, f4, f5⟩ :=
    cycle_rest_all (runCycles s ins).1 lastI hlx hly hmid
  have p1 := run_nonrest_left ins s hnr
  have p2 := run_nonrest_right ins s hnr
  have p3 := run_nonrest_up ins s hnr
  have p4 := run_nonrest_down ins s hnr
  have p5 := run_nonrest_stop ins s hnr
  have p6 := run_first_start ins s hne hnr hrange hL hR hU hD
  have gl : latchPot s.block_left = 1 := by rw [hL]; rfl
  have gr : latchPot s.block_right = 1 := by rw [hR]; rfl
  have gu : latchPot s.block_up = 1 := by rw [hU]; rfl
  have gd : latchPot s.block_down = 1 := by rw [hD]; rfl
  rw [runCycles_append]
  simp only [runCycles]
  simp only [List.append_nil, List.countP_append]
  exact ⟨by omega, by omega, by omega, by omega, by omega, by omega, f3, f4, f1, f2, f5⟩

/-- Witness for C7 amended: one leftward sample, then rest. -/
theorem axis_rest_episode_counts_witness :
    ((∀ i ∈ [{ idleInput with x := -500 }], ¬(i.x = 0 ∧ i.y = 0)) ∧
     (∀ i ∈ [{ idleInput with x := -500 }],
        -1000 ≤ i.x ∧ i.x ≤ 1000 ∧ -1000 ≤ i.y ∧ i.y ≤ 1000) ∧
     ([{ idleInput with x := -500 }] : List GPInput) ≠ []) ∧
    (((runCycles { initState with block_rest := true, block_zoom_rest := true }
        ([{ idleInput with x := -500 }] ++ [idleInput])).2).countP Cmd.isLeft ≤ 1 ∧
     ((runCycles { initState with block_rest := true, block_zoom_rest := true }
        ([{ idleInput with x := -500 }] ++ [idleInput])).2).countP Cmd.isRight ≤ 1 ∧
     ((runCycles { initState with block_rest := true, block_zoom_rest := true }
        ([{ idleInput with x := -500 }] ++ [idleInput])).2).countP Cmd.isUp ≤ 1 ∧
     ((runCycles { initState with block_rest := true, block_zoom_rest := true }
        ([{ idleInput with x := -500 }] ++ [idleInput])).2).countP Cmd.isDown ≤ 1 ∧
     1 ≤ ((runCycles { initState with block_rest := true, block_zoom_rest := true }
        ([{ idleInput with x := -500 }] ++ [idleInput])).2).countP Cmd.isStart ∧
     ((runCycles { initState with block_rest := true, block_zoom_rest := true }
        ([{ idleInput with x := -500 }] ++ [idleInput])).2).countP Cmd.isStop = 1 ∧
     (runCycles { initState with block_rest := true, block_zoom_rest := true }
        ([{ idleInput with x := -500 }] ++ [idleInput])).1.block_left = false ∧
     (runCycles { initState with block_rest := true, block_zoom_rest := true }
        ([{ idleInput with x := -500 }] ++ [idleInput])).1.block_right = false ∧
     (runCycles { initState with block_rest := true, block_zoom_rest := true }
        ([{ idleInput with x := -500 }] ++ [idleInput])).1.block_up = false ∧
     (runCycles { initState with block_rest := true, block_zoom_rest := true }
        ([{ idleInput with x := -500 }] ++ [idleInput])).1.block_down = false ∧
     (runCycles { initState with block_rest := true, block_zoom_rest := true }
        ([{ idleInput with x := -500 }] ++ [idleInput])).1.block_rest = true) :=
  ⟨⟨by decide, by decide, by decide⟩,
   axis_rest_episode_counts { initState with block_rest := true, block_zoom_rest := true }
     [{ idleInput with x := -500 }] idleInput (by decide) (by decide) (by decide)
     rfl rfl rfl rfl rfl rfl rfl⟩

/-- C10: every motion or zoom command dispatched by a poll cycle carries
the speed round(get_speed(1.0, ceiling)) for the tier ceiling selected by
the shoulder buttons of that cycle, which equals the ceiling itself; the
joystick deflection magnitude never enters the dispatched speed, only
whether a command is dispatched at all. -/
theorem dispatch_speed_is_tier_ceiling :
    ∀ (s : GPState) (i : GPInput) (c : Cmd), c ∈ (mainCycle s i).2 → tierSpeedOk s i c := by
  intro s i c hc
  simp only [mainCycle, List.mem_append] at hc
  rcases hc with ((((((((h | h) | h) | h) | h) | h) | h) | h) | h)
  · rcases recall_right_hand_mem h with h | h | h | h <;> subst h <;> trivial
  · rcases recall_left_hand_mem h with h | h | h | h <;> subst h <;> trivial
  · rcases set_right_hand_mem h with h | h | h | h <;> subst h <;> trivial
  · rcases set_left_hand_mem h with h | h | h | h <;> subst h <;> trivial
  · rcases movement_pan_mem h with h | h <;> subst h <;> exact ⟨rfl, round_get_speed _⟩
  · rcases movement_tilt_mem h with h | h <;> subst h <;> exact ⟨rfl, round_get_speed _⟩
  · rw [pan_tilt_rest_mem h]; trivial
  · rcases movement_zoom_mem h with h | h <;> subst h <;> exact ⟨rfl, round_get_speed _⟩
  · rw [zoom_rest_mem h]; trivial

/-- Witness for C10: the left command dispatched by a leftward deflection
at the low tier carries the tier ceiling 1. -/
theorem dispatch_speed_is_tier_ceiling_witness :
    Cmd.left (round (get_speed 1 ((1 : Int) : ℚ))) ∈
        (mainCycle { initState with block_rest := true, block_zoom_rest := true }
          { idleInput with x := -500 }).2 ∧
      tierSpeedOk { initState with block_rest := true, block_zoom_rest := true }
        { idleInput with x := -500 } (Cmd.left (round (get_speed 1 ((1 : Int) : ℚ)))) := by
  have hm : (mainCycle { initState with block_rest := true, block_zoom_rest := true }
      { idleInput with x := -500 }).2 =
        [Cmd.left (round (get_speed 1 ((1 : Int) : ℚ)))] := rfl
  refine ⟨?_, ?_⟩
  · rw [hm]
    exact List.mem_singleton.mpr rfl
  · exact dispatch_speed_is_tier_ceiling _ _ _ (by rw [hm]; exact List.mem_singleton.mpr rfl)
